import Mathlib

/-!
Verification of the UrbanPulse dashboard data pipeline (src/app.py).

The app builds three tables:
* `generate_real_time_data` (app.py lines 12-29): backward-stepped timestamps
  sorted ascending, plus two columns of normal draws clipped into fixed ranges;
* `generate_prediction_data` (app.py lines 31-41): future timestamps and an
  exponential extrapolation of the latest value;
* the Tab 3 simulation block (app.py lines 116-129): a copy of the real-time
  table extended with two elementwise rescaled columns.

Time is modelled as rational minutes since an arbitrary epoch; `datetime.now()`
becomes an explicit `now : ℚ` parameter and `timedelta(minutes = m)` is the
rational `m`.  The ambient numpy random draws become explicit inputs
`trafficRaw airRaw : ℕ → ℚ` (draw index to sampled value), so every theorem
quantifies over all possible outcomes of the randomness.  The builtin `sorted`
of Python (a stable ascending sort) is modelled by `List.insertionSort (· ≤ ·)`.
All numeric values are rationals; the float formulas of the source are exact
rational formulas here.
-/

namespace UrbanPulse

/-- Model of `np.clip(x, lo, hi)`: numpy computes `minimum(hi, maximum(x, lo))`. -/
def clip (lo hi x : ℚ) : ℚ := min hi (max x lo)

/-- One pandas DataFrame of app.py lines 24-28: columns `Time`,
`Traffic Density (vehicles/min)`, `PM2.5 (µg/m³)`, aligned by position. -/
structure RealTimeFrame where
  time : List ℚ
  traffic : List ℚ
  airQuality : List ℚ
deriving DecidableEq, Repr

/-- The forecast DataFrame of app.py lines 38-41: columns `Time` and
`Predicted Value`. -/
structure PredictionFrame where
  time : List ℚ
  predictedValue : List ℚ
deriving DecidableEq, Repr

/-- The Tab 3 DataFrame `df_sim`: a copy of the real-time frame with the two
derived columns `Simulated Traffic Density` and `Simulated PM2.5` added. -/
structure SimFrame where
  time : List ℚ
  traffic : List ℚ
  airQuality : List ℚ
  simulatedTraffic : List ℚ
  simulatedPM25 : List ℚ
deriving DecidableEq, Repr

/-- Embeds app.py lines 13-29 (`generate_real_time_data`):
`time_series = sorted([now - timedelta(minutes=interval_minutes * i) for i in range(num_points)])`,
`traffic_density = np.clip(np.random.normal(50, 10, num_points), 20, 100)`,
`air_quality = np.clip(np.random.normal(35, 8, num_points), 10, 80)`.
The normal draws are the explicit inputs `trafficRaw`/`airRaw`. -/
def generate_real_time_data (now : ℚ) (num_points : ℕ) (interval_minutes : ℚ)
    (trafficRaw airRaw : ℕ → ℚ) : RealTimeFrame :=
  { time := List.insertionSort (· ≤ ·)
      ((List.range num_points).map (fun i : ℕ => now - interval_minutes * (i : ℚ))),
    traffic := (List.range num_points).map (fun i => clip 20 100 (trafficRaw i)),
    airQuality := (List.range num_points).map (fun i => clip 10 80 (airRaw i)) }

/-- Embeds app.py lines 31-41 (`generate_prediction_data`):
`future_times = [last_time + timedelta(minutes=interval_minutes * i) for i in range(1, steps + 1)]`,
`predicted_values = latest_value * (trend_factor ** np.arange(1, steps + 1))`.
`last_time = datetime.now()` is the explicit parameter `last_time`. -/
def generate_prediction_data (last_time latest_value : ℚ) (steps : ℕ)
    (interval_minutes trend_factor : ℚ) : PredictionFrame :=
  { time := (List.range steps).map (fun i : ℕ => last_time + interval_minutes * ((i : ℚ) + 1)),
    predictedValue := (List.range steps).map (fun i : ℕ => latest_value * trend_factor ^ (i + 1)) }

/-- Embeds app.py lines 116-129 (Tab 3): `df_sim = df_rt.copy()`;
`df_sim["Simulated Traffic Density"] = df_sim["Traffic Density (vehicles/min)"] * (60 / timing_adjustment)`;
`df_sim["Simulated PM2.5"] = df_sim["PM2.5 (µg/m³)"] * (1 - green_zone_effect / 100)`.
Adding a column to the copy leaves the original columns in place, so the first
three fields are carried over unchanged. -/
def simulate (base : RealTimeFrame) (timing_adjustment green_zone_effect : ℚ) : SimFrame :=
  { time := base.time,
    traffic := base.traffic,
    airQuality := base.airQuality,
    simulatedTraffic := base.traffic.map (fun x => x * (60 / timing_adjustment)),
    simulatedPM25 := base.airQuality.map (fun x => x * (1 - green_zone_effect / 100)) }

/-- Sorting the backward-stepped timestamps ascending yields exactly the
reversed enumeration: entry `i` is `now - d * (n - 1 - i)`. -/
theorem time_series_sorted_eq (now d : ℚ) (n : ℕ) (hd : 0 ≤ d) :
    List.insertionSort (· ≤ ·) ((List.range n).map (fun i : ℕ => now - d * (i : ℚ)))
      = (List.range n).map (fun i : ℕ => now - d * ((n - 1 - i : ℕ) : ℚ)) := by
  have hrev : ((List.range n).map (fun i : ℕ => now - d * (i : ℚ))).reverse
      = (List.range n).map (fun i : ℕ => now - d * ((n - 1 - i : ℕ) : ℚ)) := by
    rw [← List.map_reverse, List.range_eq_range', List.reverse_range', List.map_map]
    simp [Function.comp_def, ← List.range_eq_range']
  have hperm : List.Perm
      (List.insertionSort (· ≤ ·) ((List.range n).map (fun i : ℕ => now - d * (i : ℚ))))
      ((List.range n).map (fun i : ℕ => now - d * ((n - 1 - i : ℕ) : ℚ))) := by
    refine (List.perm_insertionSort _ _).trans ?_
    rw [← hrev]
    exact (List.reverse_perm _).symm
  have hs1 : (List.insertionSort (· ≤ ·)
      ((List.range n).map (fun i : ℕ => now - d * (i : ℚ)))).Sorted (· ≤ ·) :=
    List.sorted_insertionSort _ _
  have hs2 : ((List.range n).map
      (fun i : ℕ => now - d * ((n - 1 - i : ℕ) : ℚ))).Sorted (· ≤ ·) := by
    rw [List.Sorted, List.pairwise_iff_get]
    intro i j hij
    simp only [List.get_eq_getElem, List.getElem_map, List.getElem_range]
    apply sub_le_sub_left
    apply mul_le_mul_of_nonneg_left _ hd
    exact_mod_cast Nat.sub_le_sub_left (le_of_lt hij) (n - 1)
  exact List.eq_of_perm_of_sorted hperm hs1 hs2

/-- Claim C1: for every latestValue > 0, steps >= 1, intervalMinutes > 0 and
growthFactor > 0, `generate_prediction_data` returns exactly `steps` rows whose
value at step k equals latestValue * growthFactor^k for k = 1..steps, with
timestamps now + intervalMinutes * k that are strictly increasing and all
strictly later than the call time. -/
theorem forecast_rows_values_times (now latest d g : ℚ) (steps : ℕ)
    (hl : 0 < latest) (hs : 1 ≤ steps) (hd : 0 < d) (hg : 0 < g) :
    (generate_prediction_data now latest steps d g).predictedValue.length = steps ∧
    (generate_prediction_data now latest steps d g).time.length = steps ∧
    (∀ k, k < steps →
      (generate_prediction_data now latest steps d g).predictedValue[k]?
          = some (latest * g ^ (k + 1)) ∧
      (generate_prediction_data now latest steps d g).time[k]?
          = some (now + d * ((k : ℚ) + 1))) ∧
    List.Chain' (· < ·) (generate_prediction_data now latest steps d g).time ∧
    (∀ t ∈ (generate_prediction_data now latest steps d g).time, now < t) := by
  refine ⟨by simp [generate_prediction_data], by simp [generate_prediction_data], ?_, ?_, ?_⟩
  · intro k hk
    constructor <;> simp [generate_prediction_data, hk]
  · rw [List.chain'_iff_get]
    intro i hlen
    simp only [generate_prediction_data, List.length_map, List.length_range] at hlen
    simp only [generate_prediction_data, List.get_eq_getElem, List.getElem_map,
      List.getElem_range]
    have hstep : ((i : ℚ) + 1) < ((i : ℚ) + 1 + 1) := by linarith
    have := mul_lt_mul_of_pos_left hstep hd
    push_cast
    linarith
  · intro t ht
    simp only [generate_prediction_data, List.mem_map, List.mem_range] at ht
    obtain ⟨i, _, rfl⟩ := ht
    have hpos : 0 < d * ((i : ℚ) + 1) := mul_pos hd (by positivity)
    linarith

/-- Witness for C1 at latestValue = 50, steps = 3, intervalMinutes = 5,
growthFactor = 2, call time 0. -/
theorem forecast_rows_values_times_witness :
    ((0 : ℚ) < 50 ∧ (1 : ℕ) ≤ 3 ∧ (0 : ℚ) < 5 ∧ (0 : ℚ) < 2) ∧
    ((generate_prediction_data 0 50 3 5 2).predictedValue.length = 3 ∧
    (generate_prediction_data 0 50 3 5 2).time.length = 3 ∧
    (∀ k : ℕ, k < 3 →
      (generate_prediction_data 0 50 3 5 2).predictedValue[k]?
          = some (50 * 2 ^ (k + 1)) ∧
      (generate_prediction_data 0 50 3 5 2).time[k]?
          = some (0 + 5 * ((k : ℚ) + 1))) ∧
    List.Chain' (· < ·) (generate_prediction_data 0 50 3 5 2).time ∧
    (∀ t ∈ (generate_prediction_data 0 50 3 5 2).time, 0 < t)) :=
  ⟨⟨by norm_num, by norm_num, by norm_num, by norm_num⟩,
    forecast_rows_values_times 0 50 5 2 3 (by norm_num) (by norm_num)
      (by norm_num) (by norm_num)⟩

/-- Claim C7: with latestValue = 50, steps = 3, intervalMinutes = 5,
growthFactor = 1.05 (= 21/20) called at time T, the forecast values are
exactly [52.5, 55.125, 57.88125] at timestamps [T+5, T+10, T+15]; the float
formula of the source is exact in rationals, so the tolerance is zero. -/
theorem forecast_example_scenario (T : ℚ) :
    (generate_prediction_data T 50 3 5 (21/20)).predictedValue
        = [105/2, 441/8, 9261/160] ∧
    (generate_prediction_data T 50 3 5 (21/20)).time = [T + 5, T + 10, T + 15] := by
  constructor
  · show (List.range 3).map (fun i : ℕ => (50 : ℚ) * (21/20) ^ (i + 1))
        = [105/2, 441/8, 9261/160]
    norm_num [List.range_succ]
  · show (List.range 3).map (fun i : ℕ => T + 5 * ((i : ℚ) + 1)) = [T + 5, T + 10, T + 15]
    norm_num [List.range_succ]

/-- Claim C10: for latestValue > 0 and steps >= 2, the forecast values are
strictly increasing across consecutive steps when growthFactor > 1 and
strictly decreasing when 0 < growthFactor < 1. -/
theorem forecast_monotone_values (now latest d g : ℚ) (steps : ℕ)
    (hl : 0 < latest) (hs : 2 ≤ steps) :
    (1 < g → List.Chain' (· < ·) (generate_prediction_data now latest steps d g).predictedValue) ∧
    (0 < g → g < 1 →
      List.Chain' (fun a b => b < a) (generate_prediction_data now latest steps d g).predictedValue) := by
  constructor
  · intro hg
    rw [List.chain'_iff_get]
    intro i hlen
    simp only [generate_prediction_data, List.get_eq_getElem, List.getElem_map,
      List.getElem_range]
    exact mul_lt_mul_of_pos_left (pow_lt_pow_right₀ hg (by omega)) hl
  · intro hg0 hg1
    rw [List.chain'_iff_get]
    intro i hlen
    simp only [generate_prediction_data, List.get_eq_getElem, List.getElem_map,
      List.getElem_range]
    exact mul_lt_mul_of_pos_left (pow_lt_pow_right_of_lt_one₀ hg0 hg1 (by omega)) hl

/-- Witness for C10 at latestValue = 50, steps = 3, intervalMinutes = 5,
growthFactor = 2. -/
theorem forecast_monotone_values_witness :
    ((0 : ℚ) < 50 ∧ (2 : ℕ) ≤ 3) ∧
    ((1 < (2 : ℚ) →
      List.Chain' (· < ·) (generate_prediction_data 0 50 3 5 2).predictedValue) ∧
    (0 < (2 : ℚ) → (2 : ℚ) < 1 →
      List.Chain' (fun a b => b < a) (generate_prediction_data 0 50 3 5 2).predictedValue)) :=
  ⟨⟨by norm_num, by norm_num⟩,
    forecast_monotone_values 0 50 5 2 3 (by norm_num) (by norm_num)⟩

/-- Claim C2: for every positive count and intervalMinutes,
`generate_real_time_data` returns exactly `count` rows, timestamps ascending
and spaced exactly intervalMinutes apart (each entry plus the interval equals
the next), obtained by stepping backward from now and sorting ascending, so
entry k is now - intervalMinutes * (count - 1 - k) and the newest (last)
timestamp is now itself. -/
theorem generate_rows_sorted_spaced (now d : ℚ) (n : ℕ) (tr ar : ℕ → ℚ)
    (hn : 0 < n) (hd : 0 < d) :
    (generate_real_time_data now n d tr ar).time.length = n ∧
    (generate_real_time_data now n d tr ar).traffic.length = n ∧
    (generate_real_time_data now n d tr ar).airQuality.length = n ∧
    (∀ k, k < n → (generate_real_time_data now n d tr ar).time[k]?
        = some (now - d * ((n - 1 - k : ℕ) : ℚ))) ∧
    List.Chain' (fun a b => a + d = b) (generate_real_time_data now n d tr ar).time ∧
    (generate_real_time_data now n d tr ar).time.getLast? = some now := by
  have ht : (generate_real_time_data now n d tr ar).time
      = (List.range n).map (fun i : ℕ => now - d * ((n - 1 - i : ℕ) : ℚ)) :=
    time_series_sorted_eq now d n (le_of_lt hd)
  refine ⟨by rw [ht]; simp, by simp [generate_real_time_data],
    by simp [generate_real_time_data], ?_, ?_, ?_⟩
  · intro k hk
    rw [ht]
    simp [hk]
  · rw [ht, List.chain'_iff_get]
    intro i hlen
    simp only [List.length_map, List.length_range] at hlen
    simp only [List.get_eq_getElem, List.getElem_map, List.getElem_range]
    have hsub : n - 1 - i = (n - 1 - (i + 1)) + 1 := by omega
    rw [hsub]
    push_cast
    ring
  · rw [ht, List.getLast?_eq_getElem?]
    simp only [List.length_map, List.length_range]
    have hlt : n - 1 < n := by omega
    rw [List.getElem?_map]
    simp [hlt, Nat.sub_self]

/-- Witness for C2 at count = 5, intervalMinutes = 5, call time 0, all raw
draws 0; also evaluates the example of the spec: timestamps
[T-20, T-15, T-10, T-5, T] at T = 0. -/
theorem generate_rows_sorted_spaced_witness :
    ((0 : ℕ) < 5 ∧ (0 : ℚ) < 5) ∧
    ((generate_real_time_data 0 5 5 (fun _ => 0) (fun _ => 0)).time.length = 5 ∧
    (generate_real_time_data 0 5 5 (fun _ => 0) (fun _ => 0)).traffic.length = 5 ∧
    (generate_real_time_data 0 5 5 (fun _ => 0) (fun _ => 0)).airQuality.length = 5 ∧
    (∀ k, k < 5 → (generate_real_time_data 0 5 5 (fun _ => 0) (fun _ => 0)).time[k]?
        = some (0 - 5 * ((5 - 1 - k : ℕ) : ℚ))) ∧
    List.Chain' (fun a b => a + 5 = b)
      (generate_real_time_data 0 5 5 (fun _ => 0) (fun _ => 0)).time ∧
    (generate_real_time_data 0 5 5 (fun _ => 0) (fun _ => 0)).time.getLast? = some 0) ∧
    (generate_real_time_data 0 5 5 (fun _ => 0) (fun _ => 0)).time
      = [-20, -15, -10, -5, 0] :=
  ⟨⟨by norm_num, by norm_num⟩,
    generate_rows_sorted_spaced 0 5 5 (fun _ => 0) (fun _ => 0) (by norm_num) (by norm_num),
    by
      show List.insertionSort (· ≤ ·)
          ((List.range 5).map (fun i : ℕ => (0 : ℚ) - 5 * (i : ℚ)))
        = [-20, -15, -10, -5, 0]
      rw [time_series_sorted_eq 0 5 5 (by norm_num)]
      norm_num [List.range_succ]⟩

/-- Claim C3: for every positive count and intervalMinutes and every outcome
of the random draws, every traffic value lies in [20, 100] and every
air-quality value lies in [10, 80]; out-of-range samples are clamped to the
nearest bound and never rejected, so row k still holds the clamped draw k and
the column lengths equal count. -/
theorem generate_values_clamped (now d : ℚ) (n : ℕ) (tr ar : ℕ → ℚ)
    (hn : 0 < n) (hd : 0 < d) :
    (∀ x ∈ (generate_real_time_data now n d tr ar).traffic, 20 ≤ x ∧ x ≤ 100) ∧
    (∀ x ∈ (generate_real_time_data now n d tr ar).airQuality, 10 ≤ x ∧ x ≤ 80) ∧
    (∀ k, k < n → (generate_real_time_data now n d tr ar).traffic[k]?
        = some (clip 20 100 (tr k))) ∧
    (∀ k, k < n → (generate_real_time_data now n d tr ar).airQuality[k]?
        = some (clip 10 80 (ar k))) ∧
    (generate_real_time_data now n d tr ar).traffic.length = n ∧
    (generate_real_time_data now n d tr ar).airQuality.length = n := by
  refine ⟨?_, ?_, ?_, ?_, by simp [generate_real_time_data],
    by simp [generate_real_time_data]⟩
  · intro x hx
    simp only [generate_real_time_data, List.mem_map, List.mem_range] at hx
    obtain ⟨i, _, rfl⟩ := hx
    unfold clip
    constructor
    · exact le_min (by norm_num) (le_max_right _ _)
    · exact min_le_left _ _
  · intro x hx
    simp only [generate_real_time_data, List.mem_map, List.mem_range] at hx
    obtain ⟨i, _, rfl⟩ := hx
    unfold clip
    constructor
    · exact le_min (by norm_num) (le_max_right _ _)
    · exact min_le_left _ _
  · intro k hk
    simp [generate_real_time_data, hk]
  · intro k hk
    simp [generate_real_time_data, hk]

/-- Witness for C3 at count = 3, intervalMinutes = 5, call time 0, traffic
draws 1000 (clamped to 100) and air draws -7 (clamped to 10). -/
theorem generate_values_clamped_witness :
    ((0 : ℕ) < 3 ∧ (0 : ℚ) < 5) ∧
    ((∀ x ∈ (generate_real_time_data 0 3 5 (fun _ => 1000) (fun _ => -7)).traffic,
        20 ≤ x ∧ x ≤ 100) ∧
    (∀ x ∈ (generate_real_time_data 0 3 5 (fun _ => 1000) (fun _ => -7)).airQuality,
        10 ≤ x ∧ x ≤ 80) ∧
    (∀ k, k < 3 → (generate_real_time_data 0 3 5 (fun _ => 1000) (fun _ => -7)).traffic[k]?
        = some (clip 20 100 1000)) ∧
    (∀ k, k < 3 → (generate_real_time_data 0 3 5 (fun _ => 1000) (fun _ => -7)).airQuality[k]?
        = some (clip 10 80 (-7))) ∧
    (generate_real_time_data 0 3 5 (fun _ => 1000) (fun _ => -7)).traffic.length = 3 ∧
    (generate_real_time_data 0 3 5 (fun _ => 1000) (fun _ => -7)).airQuality.length = 3) :=
  ⟨⟨by norm_num, by norm_num⟩,
    generate_values_clamped 0 5 3 (fun _ => 1000) (fun _ => -7) (by norm_num) (by norm_num)⟩

/-- Claim C9: `generate_real_time_data` called with count = 0 returns the
empty frame: zero rows, all three columns present and empty, and no error
(the function is total and performs no validation of the count). -/
theorem generate_zero_count (now d : ℚ) (tr ar : ℕ → ℚ) :
    generate_real_time_data now 0 d tr ar
      = { time := [], traffic := [], airQuality := [] } := rfl

/-- Claim C4: for every base frame and every index, the simulated traffic
column satisfies simulatedTraffic[i] = traffic[i] * (60 / signalCycleSeconds);
with signalCycleSeconds = 60 the simulated traffic column equals the base
traffic column, and with signalCycleSeconds = 30 every simulated value is
exactly twice the base value. -/
theorem simulate_traffic_scaling (base : RealTimeFrame) (c g : ℚ) :
    (∀ k : ℕ, (simulate base c g).simulatedTraffic[k]?
        = (base.traffic[k]?).map (fun x => x * (60 / c))) ∧
    (simulate base 60 g).simulatedTraffic = base.traffic ∧
    (simulate base 30 g).simulatedTraffic = base.traffic.map (fun x => x * 2) := by
  refine ⟨?_, ?_, ?_⟩
  · intro k
    simp [simulate]
  · show base.traffic.map (fun x => x * (60 / 60)) = base.traffic
    simp [show (60 : ℚ) / 60 = 1 by norm_num]
  · show base.traffic.map (fun x => x * (60 / 30)) = base.traffic.map (fun x => x * 2)
    simp [show (60 : ℚ) / 30 = 2 by norm_num]

/-- Claim C5: for every base frame and every index, the simulated air-quality
column satisfies simulatedPM25[i] = airQuality[i] * (1 - effect / 100);
with effect = 0 the simulated column equals the base column, and with
effect = 50 every simulated value is exactly half the base value. -/
theorem simulate_air_scaling (base : RealTimeFrame) (c g : ℚ) :
    (∀ k : ℕ, (simulate base c g).simulatedPM25[k]?
        = (base.airQuality[k]?).map (fun x => x * (1 - g / 100))) ∧
    (simulate base c 0).simulatedPM25 = base.airQuality ∧
    (simulate base c 50).simulatedPM25 = base.airQuality.map (fun x => x / 2) := by
  refine ⟨?_, ?_, ?_⟩
  · intro k
    simp [simulate]
  · show base.airQuality.map (fun x => x * (1 - 0 / 100)) = base.airQuality
    simp
  · show base.airQuality.map (fun x => x * (1 - 50 / 100)) = base.airQuality.map (fun x => x / 2)
    have h : ∀ x : ℚ, x * (1 - 50 / 100) = x / 2 := by intro x; ring
    simp only [h]

/-- Claim C6: the simulation never mutates its source: the output frame keeps
the base Time, TrafficDensity and AirQuality columns unchanged, has the same
length as the base, and carries exactly the two additional derived columns
(each aligned with its source column); in this pure embedding the input frame
itself is untouched by construction. -/
theorem simulate_preserves_base (base : RealTimeFrame) (c g : ℚ) :
    (simulate base c g).time = base.time ∧
    (simulate base c g).traffic = base.traffic ∧
    (simulate base c g).airQuality = base.airQuality ∧
    (simulate base c g).simulatedTraffic.length = base.traffic.length ∧
    (simulate base c g).simulatedPM25.length = base.airQuality.length := by
  refine ⟨rfl, rfl, rfl, ?_, ?_⟩ <;> simp [simulate]

/-- Claim C8: the simulation is deterministic and stateless: two calls with
equal base frames and equal parameters return equal output frames; nothing
besides the arguments influences the result. -/
theorem simulate_deterministic (b1 b2 : RealTimeFrame) (c1 c2 g1 g2 : ℚ)
    (hb : b1 = b2) (hc : c1 = c2) (hg : g1 = g2) :
    simulate b1 c1 g1 = simulate b2 c2 g2 := by
  rw [hb, hc, hg]

/-- Witness for C8 at a concrete one-row frame with cycle 60 and effect 10. -/
theorem simulate_deterministic_witness :
    ((⟨[0], [40], [30]⟩ : RealTimeFrame) = ⟨[0], [40], [30]⟩ ∧ (60 : ℚ) = 60 ∧
      (10 : ℚ) = 10) ∧
    simulate ⟨[0], [40], [30]⟩ 60 10 = simulate ⟨[0], [40], [30]⟩ 60 10 :=
  ⟨⟨rfl, rfl, rfl⟩, simulate_deterministic ⟨[0], [40], [30]⟩ ⟨[0], [40], [30]⟩ 60 60 10 10
    rfl rfl rfl⟩

end UrbanPulse
